import Mathlib

/-!
Shallow embedding of `holochain-conductor-api-rust` (`src/admin_websocket.rs`):
the typed admin RPC client over a duplex websocket, plus the signing-credential
authorizer.  Async effects are modelled by passing the remote host explicitly
as a response oracle (`Host`); randomness (`OsRng`) is modelled by passing the
generated keypair and a byte stream explicitly; a Rust `panic!`/`unreachable!`
is modelled by a distinguished `crash` outcome.
-/

namespace ConductorClient

/-- Bytes of an agent public key (`holo_hash::AgentPubKey`, external crate;
only constructed via `from_raw_32` and compared for identity here). -/
structure AgentPubKey where
  bytes : List Nat
  deriving DecidableEq, Repr

/-- `AgentPubKey::from_raw_32` — wraps 32 raw bytes as an agent key. -/
def AgentPubKey.from_raw_32 (b : List Nat) : AgentPubKey := ⟨b⟩

/-- `holo_hash::DnaHash` (external crate): opaque content hash of a DNA. -/
structure DnaHash where
  bytes : List Nat
  deriving DecidableEq, Repr

/-- `holochain_types::CellId` (external crate): a DNA hash plus an agent key. -/
structure CellId where
  dna_hash : DnaHash
  agent_pub_key : AgentPubKey
  deriving DecidableEq, Repr

/-- `holochain_conductor_api::AppInfo` (external crate): opaque app summary. -/
structure AppInfo where
  token : Nat
  deriving DecidableEq, Repr

/-- `holochain_conductor_api::AppStatusFilter` (external crate): opaque filter. -/
structure AppStatusFilter where
  token : Nat
  deriving DecidableEq, Repr

/-- `holochain_types::InstallAppPayload` (external crate): opaque payload. -/
structure InstallAppPayload where
  token : Nat
  deriving DecidableEq, Repr

/-- `holochain_types::DeleteCloneCellPayload` (external crate): opaque payload. -/
structure DeleteCloneCellPayload where
  token : Nat
  deriving DecidableEq, Repr

/-- `holochain_types::UpdateCoordinatorsPayload` (external crate): opaque payload. -/
structure UpdateCoordinatorsPayload where
  token : Nat
  deriving DecidableEq, Repr

/-- `holochain_zome_types::DnaDef` (external crate): opaque DNA definition. -/
structure DnaDef where
  token : Nat
  deriving DecidableEq, Repr

/-- `holochain_conductor_api::StorageInfo` (external crate): opaque report. -/
structure StorageInfo where
  token : Nat
  deriving DecidableEq, Repr

/-- `holochain_zome_types::Record` (external crate): opaque source-chain record. -/
structure Record where
  token : Nat
  deriving DecidableEq, Repr

/-- The payload of `AdminResponse::Error`: a host-supplied diagnostic
(`ExternalApiWireError`, external crate), carried as its message. -/
structure ExternalApiWireError where
  message : String
  deriving DecidableEq, Repr

/-- `holochain_zome_types::capability::GrantedFunctions` (external crate):
either all functions or an explicit zome-name/function-names listing. -/
inductive GrantedFunctions where
  | All : GrantedFunctions
  | Listed (functions : List (String × List String)) : GrantedFunctions
  deriving DecidableEq, Repr

/-- A capability secret: raw bytes (`CapSecret`, external crate). -/
abbrev CapSecret := List Nat

/-- `holochain_zome_types::capability::CapAccess` (external crate). -/
inductive CapAccess where
  | Unrestricted : CapAccess
  | Transferable (secret : CapSecret) : CapAccess
  | Assigned (secret : CapSecret) (assignees : List AgentPubKey) : CapAccess
  deriving DecidableEq, Repr

/-- `holochain_zome_types::capability::ZomeCallCapGrant` (external crate). -/
structure ZomeCallCapGrant where
  tag : String
  access : CapAccess
  functions : GrantedFunctions
  deriving DecidableEq, Repr

/-- `holochain_zome_types::GrantZomeCallCapabilityPayload` (external crate). -/
structure GrantZomeCallCapabilityPayload where
  cell_id : CellId
  cap_grant : ZomeCallCapGrant
  deriving DecidableEq, Repr

/-- `AuthorizeSigningCredentialsPayload` (src/admin_websocket.rs, lines 31-35). -/
structure AuthorizeSigningCredentialsPayload where
  cell_id : CellId
  functions : Option GrantedFunctions
  deriving DecidableEq, Repr

/-- `ed25519_dalek::SigningKey` (external crate), modelled as the random seed
drawn from `OsRng` together with the verifying-key bytes it determines
(`verifying_key().as_bytes()`). -/
structure SigningKey where
  seed : List Nat
  verifying_key_bytes : List Nat
  deriving DecidableEq, Repr

/-- `crate::signing::client_signing::SigningCredentials`.  Its fields are
fixed by the struct expression at src/admin_websocket.rs lines 250-254
(a Rust struct literal must name every field): the signing agent key, the
keypair and the capability secret — and nothing else. -/
structure SigningCredentials where
  signing_agent_key : AgentPubKey
  keypair : SigningKey
  cap_secret : CapSecret
  deriving DecidableEq, Repr

/-- `EnableAppResponse` (src/admin_websocket.rs, lines 25-29). -/
structure EnableAppResponse where
  app : AppInfo
  errors : List (CellId × String)
  deriving DecidableEq, Repr

/-- `AdminRequest` (holochain_conductor_api, external crate): the variants
constructed by src/admin_websocket.rs. -/
inductive AdminRequest where
  | GenerateAgentPubKey : AdminRequest
  | ListAppInterfaces : AdminRequest
  | AttachAppInterface (port : Option Nat) : AdminRequest
  | ListApps (status_filter : Option AppStatusFilter) : AdminRequest
  | InstallApp (payload : InstallAppPayload) : AdminRequest
  | UninstallApp (installed_app_id : String) : AdminRequest
  | EnableApp (installed_app_id : String) : AdminRequest
  | DisableApp (installed_app_id : String) : AdminRequest
  | GetDnaDefinition (hash : DnaHash) : AdminRequest
  | GrantZomeCallCapability (payload : GrantZomeCallCapabilityPayload) : AdminRequest
  | DeleteCloneCell (payload : DeleteCloneCellPayload) : AdminRequest
  | StorageInfo : AdminRequest
  | DumpNetworkStats : AdminRequest
  | UpdateCoordinators (payload : UpdateCoordinatorsPayload) : AdminRequest
  | GraftRecords (cell_id : CellId) (validate : Bool) (records : List Record) : AdminRequest
  deriving DecidableEq, Repr

/-- `AdminResponse` (holochain_conductor_api, external crate): the variants
matched by src/admin_websocket.rs, plus the cross-cutting `Error` variant. -/
inductive AdminResponse where
  | AgentPubKeyGenerated (key : AgentPubKey) : AdminResponse
  | AppInterfacesListed (ports : List Nat) : AdminResponse
  | AppInterfaceAttached (port : Nat) : AdminResponse
  | AppsListed (apps_infos : List AppInfo) : AdminResponse
  | AppInstalled (app_info : AppInfo) : AdminResponse
  | AppUninstalled : AdminResponse
  | AppEnabled (app : AppInfo) (errors : List (CellId × String)) : AdminResponse
  | AppDisabled : AdminResponse
  | DnaDefinitionReturned (dna_definition : DnaDef) : AdminResponse
  | ZomeCallCapabilityGranted : AdminResponse
  | CloneCellDeleted : AdminResponse
  | StorageInfo (info : StorageInfo) : AdminResponse
  | NetworkStatsDumped (stats : String) : AdminResponse
  | CoordinatorsUpdated : AdminResponse
  | RecordsGrafted : AdminResponse
  | Error (error : ExternalApiWireError) : AdminResponse
  deriving DecidableEq, Repr

/-- Constructor name of a response, standing in for its `{:?}` debug tag in
panic messages. -/
def respName : AdminResponse → String
  | .AgentPubKeyGenerated _ => "AgentPubKeyGenerated"
  | .AppInterfacesListed _ => "AppInterfacesListed"
  | .AppInterfaceAttached _ => "AppInterfaceAttached"
  | .AppsListed _ => "AppsListed"
  | .AppInstalled _ => "AppInstalled"
  | .AppUninstalled => "AppUninstalled"
  | .AppEnabled _ _ => "AppEnabled"
  | .AppDisabled => "AppDisabled"
  | .DnaDefinitionReturned _ => "DnaDefinitionReturned"
  | .ZomeCallCapabilityGranted => "ZomeCallCapabilityGranted"
  | .CloneCellDeleted => "CloneCellDeleted"
  | .StorageInfo _ => "StorageInfo"
  | .NetworkStatsDumped _ => "NetworkStatsDumped"
  | .CoordinatorsUpdated => "CoordinatorsUpdated"
  | .RecordsGrafted => "RecordsGrafted"
  | .Error _ => "Error"

/-- Error of the underlying websocket request (`holochain_websocket`,
external crate), carried as its message. -/
structure WebsocketError where
  message : String
  deriving DecidableEq, Repr

/-- `crate::error::ConductorApiError`: the two constructors applied in
src/admin_websocket.rs (lines 262 and 264). -/
inductive ConductorApiError where
  | WebsocketError (e : WebsocketError) : ConductorApiError
  | ExternalApiWireError (e : ExternalApiWireError) : ConductorApiError
  deriving DecidableEq, Repr

/-- The result of an async Rust method that may also panic: `ok`/`err` mirror
`ConductorApiResult`, and `crash` models a `panic!`/`unreachable!` (the
process terminating with the given message rather than returning). -/
inductive Outcome (ε : Type) (α : Type) where
  | ok (value : α) : Outcome ε α
  | err (error : ε) : Outcome ε α
  | crash (message : String) : Outcome ε α
  deriving DecidableEq, Repr

/-- The remote conductor, as the oracle answering one request with one
response frame (or failing at the websocket layer), standing in for
`self.tx.request(msg).await`. -/
abbrev Host := AdminRequest → Except WebsocketError AdminResponse

/-- `AdminWebsocket::send` (src/admin_websocket.rs, lines 257-267): perform
the websocket request, map a transport failure to
`ConductorApiError::WebsocketError`, and map the `Error` response variant to
`ConductorApiError::ExternalApiWireError` carrying the host's error value
unmodified; every other response passes through. -/
def send (host : Host) (msg : AdminRequest) : Except ConductorApiError AdminResponse :=
  match host msg with
  | .error e => .error (ConductorApiError.WebsocketError e)
  | .ok response =>
    match response with
    | .Error error => .error (ConductorApiError.ExternalApiWireError error)
    | _ => .ok response

/-- The panic message of the `unreachable!("Unexpected response {:?}", response)`
arms. -/
def unexpectedResponse (response : AdminResponse) : String :=
  "Unexpected response " ++ respName response

/-- `generate_agent_pub_key` (src/admin_websocket.rs, lines 56-63). -/
def generate_agent_pub_key (host : Host) : Outcome ConductorApiError AgentPubKey :=
  match send host AdminRequest.GenerateAgentPubKey with
  | .error e => .err e
  | .ok response =>
    match response with
    | .AgentPubKeyGenerated key => .ok key
    | _ => .crash (unexpectedResponse response)

/-- `list_app_interfaces` (src/admin_websocket.rs, lines 65-72). -/
def list_app_interfaces (host : Host) : Outcome ConductorApiError (List Nat) :=
  match send host AdminRequest.ListAppInterfaces with
  | .error e => .err e
  | .ok response =>
    match response with
    | .AppInterfacesListed ports => .ok ports
    | _ => .crash (unexpectedResponse response)

/-- The request built by `attach_app_interface` (src/admin_websocket.rs,
line 75): the caller-supplied port is mandatory and always sent as `Some`. -/
def attach_app_interface_request (port : Nat) : AdminRequest :=
  AdminRequest.AttachAppInterface (some port)

/-- `attach_app_interface` (src/admin_websocket.rs, lines 74-81). -/
def attach_app_interface (host : Host) (port : Nat) : Outcome ConductorApiError Nat :=
  match send host (attach_app_interface_request port) with
  | .error e => .err e
  | .ok response =>
    match response with
    | .AppInterfaceAttached port => .ok port
    | _ => .crash (unexpectedResponse response)

/-- `list_apps` (src/admin_websocket.rs, lines 83-92). -/
def list_apps (host : Host) (status_filter : Option AppStatusFilter) :
    Outcome ConductorApiError (List AppInfo) :=
  match send host (AdminRequest.ListApps status_filter) with
  | .error e => .err e
  | .ok response =>
    match response with
    | .AppsListed apps_infos => .ok apps_infos
    | _ => .crash (unexpectedResponse response)

/-- `install_app` (src/admin_websocket.rs, lines 94-102). -/
def install_app (host : Host) (payload : InstallAppPayload) :
    Outcome ConductorApiError AppInfo :=
  match send host (AdminRequest.InstallApp payload) with
  | .error e => .err e
  | .ok response =>
    match response with
    | .AppInstalled app_info => .ok app_info
    | _ => .crash (unexpectedResponse response)

/-- `uninstall_app` (src/admin_websocket.rs, lines 104-112). -/
def uninstall_app (host : Host) (installed_app_id : String) :
    Outcome ConductorApiError Unit :=
  match send host (AdminRequest.UninstallApp installed_app_id) with
  | .error e => .err e
  | .ok response =>
    match response with
    | .AppUninstalled => .ok ()
    | _ => .crash (unexpectedResponse response)

/-- `enable_app` (src/admin_websocket.rs, lines 114-125). -/
def enable_app (host : Host) (installed_app_id : String) :
    Outcome ConductorApiError EnableAppResponse :=
  match send host (AdminRequest.EnableApp installed_app_id) with
  | .error e => .err e
  | .ok response =>
    match response with
    | .AppEnabled app errors => .ok { app := app, errors := errors }
    | _ => .crash (unexpectedResponse response)

/-- `disable_app` (src/admin_websocket.rs, lines 127-135). -/
def disable_app (host : Host) (installed_app_id : String) :
    Outcome ConductorApiError Unit :=
  match send host (AdminRequest.DisableApp installed_app_id) with
  | .error e => .err e
  | .ok response =>
    match response with
    | .AppDisabled => .ok ()
    | _ => .crash (unexpectedResponse response)

/-- `get_dna_definition` (src/admin_websocket.rs, lines 137-144). -/
def get_dna_definition (host : Host) (hash : DnaHash) :
    Outcome ConductorApiError DnaDef :=
  match send host (AdminRequest.GetDnaDefinition hash) with
  | .error e => .err e
  | .ok response =>
    match response with
    | .DnaDefinitionReturned dna_definition => .ok dna_definition
    | _ => .crash (unexpectedResponse response)

/-- `grant_zome_call_capability` (src/admin_websocket.rs, lines 146-157). -/
def grant_zome_call_capability (host : Host) (payload : GrantZomeCallCapabilityPayload) :
    Outcome ConductorApiError Unit :=
  match send host (AdminRequest.GrantZomeCallCapability payload) with
  | .error e => .err e
  | .ok response =>
    match response with
    | .ZomeCallCapabilityGranted => .ok ()
    | _ => .crash (unexpectedResponse response)

/-- `delete_clone_cell` (src/admin_websocket.rs, lines 159-169). -/
def delete_clone_cell (host : Host) (payload : DeleteCloneCellPayload) :
    Outcome ConductorApiError Unit :=
  match send host (AdminRequest.DeleteCloneCell payload) with
  | .error e => .err e
  | .ok response =>
    match response with
    | .CloneCellDeleted => .ok ()
    | _ => .crash (unexpectedResponse response)

/-- `storage_info` (src/admin_websocket.rs, lines 171-178). -/
def storage_info (host : Host) : Outcome ConductorApiError StorageInfo :=
  match send host AdminRequest.StorageInfo with
  | .error e => .err e
  | .ok response =>
    match response with
    | .StorageInfo info => .ok info
    | _ => .crash (unexpectedResponse response)

/-- `dump_network_stats` (src/admin_websocket.rs, lines 180-187). -/
def dump_network_stats (host : Host) : Outcome ConductorApiError String :=
  match send host AdminRequest.DumpNetworkStats with
  | .error e => .err e
  | .ok response =>
    match response with
    | .NetworkStatsDumped stats => .ok stats
    | _ => .crash (unexpectedResponse response)

/-- `update_coordinators` (src/admin_websocket.rs, lines 189-199). -/
def update_coordinators (host : Host) (payload : UpdateCoordinatorsPayload) :
    Outcome ConductorApiError Unit :=
  match send host (AdminRequest.UpdateCoordinators payload) with
  | .error e => .err e
  | .ok response =>
    match response with
    | .CoordinatorsUpdated => .ok ()
    | _ => .crash (unexpectedResponse response)

/-- `graft_records` (src/admin_websocket.rs, lines 201-217). -/
def graft_records (host : Host) (cell_id : CellId) (validate : Bool)
    (records : List Record) : Outcome ConductorApiError Unit :=
  match send host (AdminRequest.GraftRecords cell_id validate records) with
  | .error e => .err e
  | .ok response =>
    match response with
    | .RecordsGrafted => .ok ()
    | _ => .crash (unexpectedResponse response)

/-- `CAP_SECRET_BYTES` (holochain_zome_types, external crate): 64. -/
def CAP_SECRET_BYTES : Nat := 64

/-- The `{:?}` debug rendering of a `ConductorApiError`, used when
`authorize_signing_credentials` formats `anyhow!("Conductor API error: {:?}", e)`. -/
def errDebug : ConductorApiError → String
  | .WebsocketError e => "WebsocketError(" ++ e.message ++ ")"
  | .ExternalApiWireError e => "ExternalApiWireError(" ++ e.message ++ ")"

/-- An `anyhow::Error` (external crate), carried as its message. -/
structure AnyhowError where
  message : String
  deriving DecidableEq, Repr

/-- The grant payload built by `authorize_signing_credentials`
(src/admin_websocket.rs, lines 236-246): tag `"zome-call-signing-key"`,
`Assigned` access whose assignee set is the singleton of the key derived from
the freshly generated keypair, the 64 bytes drawn from the csprng as secret,
and the caller's functions or `All` when none were given. -/
def authorize_grant_payload (keypair : SigningKey) (rng : Nat → Nat)
    (request : AuthorizeSigningCredentialsPayload) : GrantZomeCallCapabilityPayload :=
  let signing_agent_key := AgentPubKey.from_raw_32 keypair.verifying_key_bytes
  let cap_secret : CapSecret := (List.range CAP_SECRET_BYTES).map rng
  { cell_id := request.cell_id
    cap_grant :=
      { tag := "zome-call-signing-key"
        access := CapAccess.Assigned cap_secret [signing_agent_key]
        functions := request.functions.getD GrantedFunctions.All } }

/-- `authorize_signing_credentials` (src/admin_websocket.rs, lines 219-255).
The `OsRng` draws are explicit inputs: `keypair` is the generated signing
keypair and `rng` the byte stream filling the 64-byte capability secret.
On grant failure the error is wrapped as
`anyhow!("Conductor API error: {:?}", e)`; on success the credentials bundle
holds the derived agent key, the keypair and the secret. -/
def authorize_signing_credentials (host : Host) (keypair : SigningKey)
    (rng : Nat → Nat) (request : AuthorizeSigningCredentialsPayload) :
    Outcome AnyhowError SigningCredentials :=
  let signing_agent_key := AgentPubKey.from_raw_32 keypair.verifying_key_bytes
  let cap_secret : CapSecret := (List.range CAP_SECRET_BYTES).map rng
  match grant_zome_call_capability host (authorize_grant_payload keypair rng request) with
  | .err e => .err { message := "Conductor API error: " ++ errDebug e }
  | .crash m => .crash m
  | .ok _ =>
    .ok { signing_agent_key := signing_agent_key, keypair := keypair, cap_secret := cap_secret }

/-- Handle held by the websocket receiver (`holochain_websocket`, external
crate); closing it tears the connection down. -/
structure Handle where
  id : Nat
  deriving DecidableEq, Repr

/-- `WebsocketReceiver` (external crate): owns at most one close handle;
`take_handle` removes and returns it. -/
structure WebsocketReceiver where
  handle : Option Handle
  deriving DecidableEq, Repr

/-- `WebsocketReceiver::take_handle` (external crate): take the handle out,
leaving none behind. -/
def take_handle (rx : WebsocketReceiver) : Option Handle × WebsocketReceiver :=
  (rx.handle, { handle := none })

/-- `WebsocketSender` (external crate): opaque sending half. -/
structure WebsocketSender where
  token : Nat
  deriving DecidableEq, Repr

/-- The `AdminWebsocket` struct (src/admin_websocket.rs, lines 20-23). -/
structure AdminWebsocket where
  tx : WebsocketSender
  rx : WebsocketReceiver
  deriving DecidableEq, Repr

/-- `AdminWebsocket::close` (src/admin_websocket.rs, lines 50-54): take the
receiver's handle and close it if present.  The returned list records which
handles were actually closed (the observable effect); the function is total —
it can neither fail nor panic. -/
def close (s : AdminWebsocket) : AdminWebsocket × List Handle :=
  let t := take_handle s.rx
  match t.1 with
  | some h => ({ s with rx := t.2 }, [h])
  | none => ({ s with rx := t.2 }, [])

/-- A parsed URL (`url::Url`, external crate), reduced to the pieces the
client needs. -/
structure Url where
  scheme : String
  rest : String
  deriving DecidableEq, Repr

/-- Split a character list at the first occurrence of the `://` separator,
returning the characters before it and after it; `none` when the separator
does not occur. -/
def splitScheme : List Char → Option (List Char × List Char)
  | [] => none
  | ':' :: '/' :: '/' :: rest => some ([], rest)
  | c :: rest =>
    match splitScheme rest with
    | some (scheme, tail) => some (c :: scheme, tail)
    | none => none

/-- `Url::parse` (url crate, external): modelled as requiring a
`scheme://host...` shape — a nonempty alphabetic scheme, the `://`
separator, and a nonempty remainder. -/
def Url.parse (s : String) : Option Url :=
  match splitScheme s.toList with
  | some (scheme, rest) =>
    if scheme ≠ [] ∧ rest ≠ [] ∧ scheme.all Char.isAlpha then
      some { scheme := String.mk scheme, rest := String.mk rest }
    else none
  | none => none

/-- A transport-level failure of one connection attempt
(`holochain_websocket::connect`, external crate). -/
structure TransportError where
  message : String
  deriving DecidableEq, Repr

/-- The error surface of `AdminWebsocket::connect` (an `anyhow::Result`):
either the URL failed to parse (with the `context` string added at
src/admin_websocket.rs line 39) or the retried transport handshake failed. -/
inductive ConnectError where
  | invalidUrl (context : String) : ConnectError
  | transport (e : TransportError) : ConnectError
  deriving DecidableEq, Repr

/-- `again::RetryPolicy::default().max_retries` (again crate, external): 5. -/
def MAX_RETRIES : Nat := 5

/-- `again::retry` (external crate) under its default bounded policy: attempt
`k`; on failure, with `n` retries left, move on to attempt `k + 1`; when the
budget is exhausted the last attempt's error is returned.  Delays and backoff
have no observable effect in this embedding and are elided. -/
def retryGo (attempts : Nat → Except TransportError AdminWebsocket) :
    Nat → Nat → Except TransportError AdminWebsocket
  | k, 0 => attempts k
  | k, n + 1 =>
    match attempts k with
    | .ok conn => .ok conn
    | .error _ => retryGo attempts (k + 1) n

/-- `AdminWebsocket::connect` (src/admin_websocket.rs, lines 38-48): parse
the URL first (a parse failure is terminal and consults no attempt), then
run the websocket handshake under `again::retry`'s default bounded policy.
Each element of `attempts` is the outcome `holochain_websocket::connect`
would produce on that (fresh) attempt. -/
def connect (attempts : Nat → Except TransportError AdminWebsocket)
    (admin_url : String) : Except ConnectError AdminWebsocket :=
  match Url.parse admin_url with
  | none => .error (ConnectError.invalidUrl "invalid ws:// URL")
  | some _ =>
    match retryGo attempts 0 MAX_RETRIES with
    | .ok conn => .ok conn
    | .error e => .error (ConnectError.transport e)

/-- If the host answers a request with the `Error` variant, `send` returns
`ConductorApiError.ExternalApiWireError` carrying that error value unmodified. -/
theorem send_error_variant (host : Host) (msg : AdminRequest) (e : ExternalApiWireError)
    (h : host msg = Except.ok (AdminResponse.Error e)) :
    send host msg = Except.error (ConductorApiError.ExternalApiWireError e) := by
  simp [send, h]

/-- C2: For every administrative operation, if the response received is the
`Error` variant, the operation returns `ConductorApiError.ExternalApiWireError`
carrying the host's error value (hence its diagnostic message) unmodified —
an `err` outcome, never an `ok`. -/
theorem error_variant_yields_host_reported_error (host : Host) (e : ExternalApiWireError) :
    (host AdminRequest.GenerateAgentPubKey = Except.ok (AdminResponse.Error e) →
      generate_agent_pub_key host = Outcome.err (ConductorApiError.ExternalApiWireError e)) ∧
    (host AdminRequest.ListAppInterfaces = Except.ok (AdminResponse.Error e) →
      list_app_interfaces host = Outcome.err (ConductorApiError.ExternalApiWireError e)) ∧
    (∀ port, host (attach_app_interface_request port) = Except.ok (AdminResponse.Error e) →
      attach_app_interface host port = Outcome.err (ConductorApiError.ExternalApiWireError e)) ∧
    (∀ f, host (AdminRequest.ListApps f) = Except.ok (AdminResponse.Error e) →
      list_apps host f = Outcome.err (ConductorApiError.ExternalApiWireError e)) ∧
    (∀ p, host (AdminRequest.InstallApp p) = Except.ok (AdminResponse.Error e) →
      install_app host p = Outcome.err (ConductorApiError.ExternalApiWireError e)) ∧
    (∀ a, host (AdminRequest.UninstallApp a) = Except.ok (AdminResponse.Error e) →
      uninstall_app host a = Outcome.err (ConductorApiError.ExternalApiWireError e)) ∧
    (∀ a, host (AdminRequest.EnableApp a) = Except.ok (AdminResponse.Error e) →
      enable_app host a = Outcome.err (ConductorApiError.ExternalApiWireError e)) ∧
    (∀ a, host (AdminRequest.DisableApp a) = Except.ok (AdminResponse.Error e) →
      disable_app host a = Outcome.err (ConductorApiError.ExternalApiWireError e)) ∧
    (∀ d, host (AdminRequest.GetDnaDefinition d) = Except.ok (AdminResponse.Error e) →
      get_dna_definition host d = Outcome.err (ConductorApiError.ExternalApiWireError e)) ∧
    (∀ p, host (AdminRequest.GrantZomeCallCapability p) = Except.ok (AdminResponse.Error e) →
      grant_zome_call_capability host p = Outcome.err (ConductorApiError.ExternalApiWireError e)) ∧
    (∀ p, host (AdminRequest.DeleteCloneCell p) = Except.ok (AdminResponse.Error e) →
      delete_clone_cell host p = Outcome.err (ConductorApiError.ExternalApiWireError e)) ∧
    (host AdminRequest.StorageInfo = Except.ok (AdminResponse.Error e) →
      storage_info host = Outcome.err (ConductorApiError.ExternalApiWireError e)) ∧
    (host AdminRequest.DumpNetworkStats = Except.ok (AdminResponse.Error e) →
      dump_network_stats host = Outcome.err (ConductorApiError.ExternalApiWireError e)) ∧
    (∀ p, host (AdminRequest.UpdateCoordinators p) = Except.ok (AdminResponse.Error e) →
      update_coordinators host p = Outcome.err (ConductorApiError.ExternalApiWireError e)) ∧
    (∀ c v rs, host (AdminRequest.GraftRecords c v rs) = Except.ok (AdminResponse.Error e) →
      graft_records host c v rs = Outcome.err (ConductorApiError.ExternalApiWireError e)) := by
  refine ⟨fun h => ?_, fun h => ?_, fun _ h => ?_, fun _ h => ?_, fun _ h => ?_,
    fun _ h => ?_, fun _ h => ?_, fun _ h => ?_, fun _ h => ?_, fun _ h => ?_,
    fun _ h => ?_, fun h => ?_, fun h => ?_, fun _ h => ?_, fun _ _ _ h => ?_⟩ <;>
    simp [generate_agent_pub_key, list_app_interfaces, attach_app_interface, list_apps,
      install_app, uninstall_app, enable_app, disable_app, get_dna_definition,
      grant_zome_call_capability, delete_clone_cell, storage_info, dump_network_stats,
      update_coordinators, graft_records, send_error_variant host _ e h]

/-- Witness for C2: a host answering every request with `Error "nope"` makes
`generate_agent_pub_key` fail with the host-reported error carrying it. -/
theorem error_variant_yields_host_reported_error_witness :
    generate_agent_pub_key (fun _ => Except.ok (AdminResponse.Error ⟨"nope"⟩)) =
      Outcome.err (ConductorApiError.ExternalApiWireError ⟨"nope"⟩) :=
  (error_variant_yields_host_reported_error
    (fun _ => Except.ok (AdminResponse.Error ⟨"nope"⟩)) ⟨"nope"⟩).1 rfl

/-- C5: For every administrative operation, when the response received is
exactly the one success variant that operation accepts, the operation returns
the variant's decoded payload unchanged. -/
theorem accepted_variant_round_trip_identity (host : Host) :
    (∀ key, host AdminRequest.GenerateAgentPubKey =
        Except.ok (AdminResponse.AgentPubKeyGenerated key) →
      generate_agent_pub_key host = Outcome.ok key) ∧
    (∀ ports, host AdminRequest.ListAppInterfaces =
        Except.ok (AdminResponse.AppInterfacesListed ports) →
      list_app_interfaces host = Outcome.ok ports) ∧
    (∀ port bound, host (attach_app_interface_request port) =
        Except.ok (AdminResponse.AppInterfaceAttached bound) →
      attach_app_interface host port = Outcome.ok bound) ∧
    (∀ f apps, host (AdminRequest.ListApps f) = Except.ok (AdminResponse.AppsListed apps) →
      list_apps host f = Outcome.ok apps) ∧
    (∀ p info, host (AdminRequest.InstallApp p) = Except.ok (AdminResponse.AppInstalled info) →
      install_app host p = Outcome.ok info) ∧
    (∀ a, host (AdminRequest.UninstallApp a) = Except.ok AdminResponse.AppUninstalled →
      uninstall_app host a = Outcome.ok ()) ∧
    (∀ a app errors, host (AdminRequest.EnableApp a) =
        Except.ok (AdminResponse.AppEnabled app errors) →
      enable_app host a = Outcome.ok { app := app, errors := errors }) ∧
    (∀ a, host (AdminRequest.DisableApp a) = Except.ok AdminResponse.AppDisabled →
      disable_app host a = Outcome.ok ()) ∧
    (∀ d dna, host (AdminRequest.GetDnaDefinition d) =
        Except.ok (AdminResponse.DnaDefinitionReturned dna) →
      get_dna_definition host d = Outcome.ok dna) ∧
    (∀ p, host (AdminRequest.GrantZomeCallCapability p) =
        Except.ok AdminResponse.ZomeCallCapabilityGranted →
      grant_zome_call_capability host p = Outcome.ok ()) ∧
    (∀ p, host (AdminRequest.DeleteCloneCell p) = Except.ok AdminResponse.CloneCellDeleted →
      delete_clone_cell host p = Outcome.ok ()) ∧
    (∀ info, host AdminRequest.StorageInfo = Except.ok (AdminResponse.StorageInfo info) →
      storage_info host = Outcome.ok info) ∧
    (∀ stats, host AdminRequest.DumpNetworkStats =
        Except.ok (AdminResponse.NetworkStatsDumped stats) →
      dump_network_stats host = Outcome.ok stats) ∧
    (∀ p, host (AdminRequest.UpdateCoordinators p) =
        Except.ok AdminResponse.CoordinatorsUpdated →
      update_coordinators host p = Outcome.ok ()) ∧
    (∀ c v rs, host (AdminRequest.GraftRecords c v rs) =
        Except.ok AdminResponse.RecordsGrafted →
      graft_records host c v rs = Outcome.ok ()) := by
  refine ⟨fun _ h => ?_, fun _ h => ?_, fun _ _ h => ?_, fun _ _ h => ?_, fun _ _ h => ?_,
    fun _ h => ?_, fun _ _ _ h => ?_, fun _ h => ?_, fun _ _ h => ?_, fun _ h => ?_,
    fun _ h => ?_, fun _ h => ?_, fun _ h => ?_, fun _ h => ?_, fun _ _ _ h => ?_⟩ <;>
    simp [generate_agent_pub_key, list_app_interfaces, attach_app_interface, list_apps,
      install_app, uninstall_app, enable_app, disable_app, get_dna_definition,
      grant_zome_call_capability, delete_clone_cell, storage_info, dump_network_stats,
      update_coordinators, graft_records, send, h]

/-- A demonstration host answering every request with exactly the accepted
success variant of the operation that sends it. -/
def demoHost : Host := fun m =>
  match m with
  | .GenerateAgentPubKey => Except.ok (AdminResponse.AgentPubKeyGenerated ⟨[1]⟩)
  | .ListAppInterfaces => Except.ok (AdminResponse.AppInterfacesListed [8888])
  | .AttachAppInterface _ => Except.ok (AdminResponse.AppInterfaceAttached 4000)
  | .ListApps _ => Except.ok (AdminResponse.AppsListed [⟨5⟩])
  | .InstallApp _ => Except.ok (AdminResponse.AppInstalled ⟨6⟩)
  | .UninstallApp _ => Except.ok AdminResponse.AppUninstalled
  | .EnableApp _ => Except.ok (AdminResponse.AppEnabled ⟨7⟩ [])
  | .DisableApp _ => Except.ok AdminResponse.AppDisabled
  | .GetDnaDefinition _ => Except.ok (AdminResponse.DnaDefinitionReturned ⟨8⟩)
  | .GrantZomeCallCapability _ => Except.ok AdminResponse.ZomeCallCapabilityGranted
  | .DeleteCloneCell _ => Except.ok AdminResponse.CloneCellDeleted
  | .StorageInfo => Except.ok (AdminResponse.StorageInfo ⟨9⟩)
  | .DumpNetworkStats => Except.ok (AdminResponse.NetworkStatsDumped "stats")
  | .UpdateCoordinators _ => Except.ok AdminResponse.CoordinatorsUpdated
  | .GraftRecords _ _ _ => Except.ok AdminResponse.RecordsGrafted

/-- Witness for C5: against `demoHost`, every operation returns exactly the
payload the host put in its accepted variant. -/
theorem accepted_variant_round_trip_identity_witness :
    generate_agent_pub_key demoHost = Outcome.ok ⟨[1]⟩ ∧
    list_app_interfaces demoHost = Outcome.ok [8888] ∧
    attach_app_interface demoHost 3000 = Outcome.ok 4000 ∧
    list_apps demoHost none = Outcome.ok [⟨5⟩] ∧
    install_app demoHost ⟨0⟩ = Outcome.ok ⟨6⟩ ∧
    uninstall_app demoHost "app" = Outcome.ok () ∧
    enable_app demoHost "app" = Outcome.ok { app := ⟨7⟩, errors := [] } ∧
    disable_app demoHost "app" = Outcome.ok () ∧
    get_dna_definition demoHost ⟨[2]⟩ = Outcome.ok ⟨8⟩ ∧
    grant_zome_call_capability demoHost
      ⟨⟨⟨[2]⟩, ⟨[3]⟩⟩, ⟨"tag", CapAccess.Unrestricted, GrantedFunctions.All⟩⟩ = Outcome.ok () ∧
    delete_clone_cell demoHost ⟨0⟩ = Outcome.ok () ∧
    storage_info demoHost = Outcome.ok ⟨9⟩ ∧
    dump_network_stats demoHost = Outcome.ok "stats" ∧
    update_coordinators demoHost ⟨0⟩ = Outcome.ok () ∧
    graft_records demoHost ⟨⟨[2]⟩, ⟨[3]⟩⟩ true [] = Outcome.ok () := by
  have t := accepted_variant_round_trip_identity demoHost
  exact ⟨t.1 _ rfl, t.2.1 _ rfl, t.2.2.1 3000 4000 rfl, t.2.2.2.1 none _ rfl,
    t.2.2.2.2.1 _ _ rfl, t.2.2.2.2.2.1 _ rfl, t.2.2.2.2.2.2.1 _ _ _ rfl,
    t.2.2.2.2.2.2.2.1 _ rfl, t.2.2.2.2.2.2.2.2.1 _ _ rfl,
    t.2.2.2.2.2.2.2.2.2.1 _ rfl, t.2.2.2.2.2.2.2.2.2.2.1 _ rfl,
    t.2.2.2.2.2.2.2.2.2.2.2.1 _ rfl, t.2.2.2.2.2.2.2.2.2.2.2.2.1 _ rfl,
    t.2.2.2.2.2.2.2.2.2.2.2.2.2.1 _ rfl, t.2.2.2.2.2.2.2.2.2.2.2.2.2.2 _ _ _ rfl⟩

/-- C1 (against the claim): receiving a well-formed response variant other
than the accepted one (and other than `Error`) does NOT produce a
protocol-violation error value — the operation hits the
`unreachable!("Unexpected response {:?}", response)` arm and panics,
modelled here as the `crash` outcome, terminating the process. -/
theorem mismatched_variant_crashes_process :
    generate_agent_pub_key (fun _ => Except.ok (AdminResponse.AppInterfacesListed [])) =
      Outcome.crash (unexpectedResponse (AdminResponse.AppInterfacesListed [])) ∧
    enable_app (fun _ => Except.ok AdminResponse.AppUninstalled) "app" =
      Outcome.crash (unexpectedResponse AdminResponse.AppUninstalled) ∧
    attach_app_interface (fun _ => Except.ok (AdminResponse.AgentPubKeyGenerated ⟨[0]⟩)) 0 =
      Outcome.crash (unexpectedResponse (AdminResponse.AgentPubKeyGenerated ⟨[0]⟩)) :=
  ⟨rfl, rfl, rfl⟩

/-- C10: `send` never hands an `Error` response to the operation-level match
— any response `send` returns with `ok` is not the `Error` variant — and
consequently, whenever an operation (here `generate_agent_pub_key`) reaches
its catch-all arm (the `crash` outcome), the host's response was a
well-formed variant that is neither `Error` nor the accepted variant. -/
theorem send_filters_error_variant_before_match :
    (∀ (host : Host) (msg : AdminRequest) (r : AdminResponse),
      send host msg = Except.ok r → ∀ e, r ≠ AdminResponse.Error e) ∧
    (∀ (host : Host) (m : String), generate_agent_pub_key host = Outcome.crash m →
      ∃ r, host AdminRequest.GenerateAgentPubKey = Except.ok r ∧
        (∀ e, r ≠ AdminResponse.Error e) ∧
        (∀ k, r ≠ AdminResponse.AgentPubKeyGenerated k)) := by
  constructor
  · intro host msg r h e
    cases hh : host msg with
    | error e2 => simp [send, hh] at h
    | ok resp =>
      cases resp <;> simp [send, hh] at h <;> simp [← h]
  · intro host m h
    cases hh : host AdminRequest.GenerateAgentPubKey with
    | error e2 => simp [generate_agent_pub_key, send, hh] at h
    | ok resp =>
      refine ⟨resp, rfl, ?_⟩
      cases resp <;> simp [generate_agent_pub_key, send, hh] at h <;> simp

/-- Witness for C10: applying both halves at concrete hosts — a success
response is not the `Error` variant, and a crash of `generate_agent_pub_key`
exposes a mismatched non-`Error` response. -/
theorem send_filters_error_variant_before_match_witness :
    (AdminResponse.AgentPubKeyGenerated ⟨[9]⟩ ≠ AdminResponse.Error ⟨"x"⟩) ∧
    (∃ r, (fun _ => Except.ok (AdminResponse.AppInterfacesListed [])
          : Host) AdminRequest.GenerateAgentPubKey = Except.ok r ∧
      (∀ e, r ≠ AdminResponse.Error e) ∧
      (∀ k, r ≠ AdminResponse.AgentPubKeyGenerated k)) :=
  ⟨send_filters_error_variant_before_match.1
      (fun _ => Except.ok (AdminResponse.AgentPubKeyGenerated ⟨[9]⟩))
      AdminRequest.GenerateAgentPubKey _ rfl ⟨"x"⟩,
   send_filters_error_variant_before_match.2
      (fun _ => Except.ok (AdminResponse.AppInterfacesListed []))
      (unexpectedResponse (AdminResponse.AppInterfacesListed [])) rfl⟩

/-- C3: `authorize_signing_credentials` draws a 64-byte capability secret,
submits a grant whose access is `Assigned` with assignee set exactly the
singleton of the public key derived from the fresh keypair and with that
secret, whose function scope is the caller's or `All` when none is given;
and when the host acknowledges that very grant request, the credentials
returned carry the byte-identical secret and the same public key. -/
theorem authorize_submits_assigned_singleton_grant (keypair : SigningKey)
    (rng : Nat → Nat) (request : AuthorizeSigningCredentialsPayload) :
    ((List.range CAP_SECRET_BYTES).map rng).length = 64 ∧
    (authorize_grant_payload keypair rng request).cap_grant.access =
      CapAccess.Assigned ((List.range CAP_SECRET_BYTES).map rng)
        [AgentPubKey.from_raw_32 keypair.verifying_key_bytes] ∧
    (authorize_grant_payload keypair rng request).cap_grant.functions =
      request.functions.getD GrantedFunctions.All ∧
    (∀ host : Host,
      host (AdminRequest.GrantZomeCallCapability (authorize_grant_payload keypair rng request)) =
        Except.ok AdminResponse.ZomeCallCapabilityGranted →
      authorize_signing_credentials host keypair rng request =
        Outcome.ok
          { signing_agent_key := AgentPubKey.from_raw_32 keypair.verifying_key_bytes,
            keypair := keypair,
            cap_secret := (List.range CAP_SECRET_BYTES).map rng }) := by
  refine ⟨by simp [CAP_SECRET_BYTES], rfl, rfl, fun host h => ?_⟩
  simp [authorize_signing_credentials, grant_zome_call_capability, send, h]

/-- Witness for C3: a host acknowledging the grant makes a concrete
`authorize_signing_credentials` call return the expected bundle. -/
theorem authorize_submits_assigned_singleton_grant_witness :
    authorize_signing_credentials (fun _ => Except.ok AdminResponse.ZomeCallCapabilityGranted)
        ⟨[1], [2]⟩ (fun _ => 7) ⟨⟨⟨[3]⟩, ⟨[4]⟩⟩, none⟩ =
      Outcome.ok
        { signing_agent_key := AgentPubKey.from_raw_32 [2],
          keypair := ⟨[1], [2]⟩,
          cap_secret := (List.range CAP_SECRET_BYTES).map (fun _ => 7) } :=
  (authorize_submits_assigned_singleton_grant ⟨[1], [2]⟩ (fun _ => 7)
    ⟨⟨⟨[3]⟩, ⟨[4]⟩⟩, none⟩).2.2.2
    (fun _ => Except.ok AdminResponse.ZomeCallCapabilityGranted) rfl

/-- C4 (against the claim): on failure of the grant round trip the underlying
error is NOT propagated untouched — it is wrapped into a fresh
`anyhow!("Conductor API error: {:?}", e)` message, which differs from the
underlying error's own rendering — and the success bundle does NOT contain
the cell identity: two authorize calls for different cell identities (same
randomness) return identical credentials. -/
theorem authorize_error_wrapped_and_bundle_lacks_cell_identity :
    (authorize_signing_credentials (fun _ => Except.ok (AdminResponse.Error ⟨"boom"⟩))
        ⟨[1], [2]⟩ (fun _ => 7) ⟨⟨⟨[3]⟩, ⟨[4]⟩⟩, none⟩ =
      Outcome.err ⟨"Conductor API error: " ++
        errDebug (ConductorApiError.ExternalApiWireError ⟨"boom"⟩)⟩) ∧
    ("Conductor API error: " ++ errDebug (ConductorApiError.ExternalApiWireError ⟨"boom"⟩) ≠
      errDebug (ConductorApiError.ExternalApiWireError ⟨"boom"⟩)) ∧
    (authorize_signing_credentials (fun _ => Except.ok AdminResponse.ZomeCallCapabilityGranted)
        ⟨[1], [2]⟩ (fun _ => 7) ⟨⟨⟨[3]⟩, ⟨[4]⟩⟩, none⟩ =
      authorize_signing_credentials (fun _ => Except.ok AdminResponse.ZomeCallCapabilityGranted)
        ⟨[1], [2]⟩ (fun _ => 7) ⟨⟨⟨[5]⟩, ⟨[6]⟩⟩, none⟩) ∧
    ((⟨⟨[3]⟩, ⟨[4]⟩⟩ : CellId) ≠ (⟨⟨[5]⟩, ⟨[6]⟩⟩ : CellId)) :=
  ⟨rfl, by decide, rfl, by decide⟩

/-- C4 as amended: on grant failure, `authorize_signing_credentials` returns
an error wrapping the underlying error's rendering in a
`"Conductor API error: ..."` message and never any credentials; on grant
success it returns the full bundle — derived public key, keypair and secret
(the bundle has no cell-identity field). -/
theorem authorize_wraps_error_and_never_partial_credentials (host : Host)
    (keypair : SigningKey) (rng : Nat → Nat)
    (request : AuthorizeSigningCredentialsPayload) :
    (∀ e, grant_zome_call_capability host (authorize_grant_payload keypair rng request) =
        Outcome.err e →
      authorize_signing_credentials host keypair rng request =
        Outcome.err ⟨"Conductor API error: " ++ errDebug e⟩) ∧
    (grant_zome_call_capability host (authorize_grant_payload keypair rng request) =
        Outcome.ok () →
      authorize_signing_credentials host keypair rng request =
        Outcome.ok
          { signing_agent_key := AgentPubKey.from_raw_32 keypair.verifying_key_bytes,
            keypair := keypair,
            cap_secret := (List.range CAP_SECRET_BYTES).map rng }) :=
  ⟨fun e h => by simp [authorize_signing_credentials, h],
   fun h => by simp [authorize_signing_credentials, h]⟩

/-- Witness for the amended C4: both branches applied at concrete hosts —
wrapped error on a host-reported grant failure, full bundle on success. -/
theorem authorize_wraps_error_and_never_partial_credentials_witness :
    (authorize_signing_credentials (fun _ => Except.ok (AdminResponse.Error ⟨"no cell"⟩))
        ⟨[1], [2]⟩ (fun _ => 7) ⟨⟨⟨[3]⟩, ⟨[4]⟩⟩, none⟩ =
      Outcome.err ⟨"Conductor API error: " ++
        errDebug (ConductorApiError.ExternalApiWireError ⟨"no cell"⟩)⟩) ∧
    (authorize_signing_credentials (fun _ => Except.ok AdminResponse.ZomeCallCapabilityGranted)
        ⟨[8], [9]⟩ (fun _ => 3) ⟨⟨⟨[3]⟩, ⟨[4]⟩⟩, some GrantedFunctions.All⟩ =
      Outcome.ok
        { signing_agent_key := AgentPubKey.from_raw_32 [9],
          keypair := ⟨[8], [9]⟩,
          cap_secret := (List.range CAP_SECRET_BYTES).map (fun _ => 3) }) :=
  ⟨(authorize_wraps_error_and_never_partial_credentials
      (fun _ => Except.ok (AdminResponse.Error ⟨"no cell"⟩)) ⟨[1], [2]⟩ (fun _ => 7)
      ⟨⟨⟨[3]⟩, ⟨[4]⟩⟩, none⟩).1 (ConductorApiError.ExternalApiWireError ⟨"no cell"⟩) rfl,
   (authorize_wraps_error_and_never_partial_credentials
      (fun _ => Except.ok AdminResponse.ZomeCallCapabilityGranted) ⟨[8], [9]⟩ (fun _ => 3)
      ⟨⟨⟨[3]⟩, ⟨[4]⟩⟩, some GrantedFunctions.All⟩).2 rfl⟩

/-- If every attempt strictly before `j` fails and attempt `j` (within the
budget) succeeds, the retry loop returns attempt `j`'s connection. -/
theorem retryGo_eventually_ok (attempts : Nat → Except TransportError AdminWebsocket) :
    ∀ n k j conn, k ≤ j → j ≤ k + n →
      (∀ i, k ≤ i → i < j → ∃ e, attempts i = Except.error e) →
      attempts j = Except.ok conn →
      retryGo attempts k n = Except.ok conn := by
  intro n
  induction n with
  | zero =>
    intro k j conn hkj hjk hfail hok
    have hj : j = k := by omega
    subst hj
    simpa [retryGo] using hok
  | succ n ih =>
    intro k j conn hkj hjk hfail hok
    rcases Nat.eq_or_lt_of_le hkj with heq | hlt
    · subst heq
      simp [retryGo, hok]
    · obtain ⟨e, he⟩ := hfail k le_rfl hlt
      simp only [retryGo, he]
      exact ih (k + 1) j conn hlt (by omega) (fun i h1 h2 => hfail i (by omega) h2) hok

/-- If every attempt in the budget fails, the retry loop returns the error of
the last attempt. -/
theorem retryGo_all_fail (attempts : Nat → Except TransportError AdminWebsocket)
    (es : Nat → TransportError) :
    ∀ n k, (∀ i, k ≤ i → i ≤ k + n → attempts i = Except.error (es i)) →
      retryGo attempts k n = Except.error (es (k + n)) := by
  intro n
  induction n with
  | zero =>
    intro k hfail
    simpa [retryGo] using hfail k le_rfl (by omega)
  | succ n ih =>
    intro k hfail
    have hk := hfail k le_rfl (by omega)
    simp only [retryGo, hk]
    have h2 := ih (k + 1) (fun i h1 h2 => hfail i (by omega) (by omega))
    have harith : k + (n + 1) = (k + 1) + n := by omega
    rw [harith]
    exact h2

/-- C6: on a well-formed address, `connect` re-attempts the handshake under
the bounded default retry policy (`MAX_RETRIES` retries after the first
attempt): it returns the connection of the first attempt that succeeds
within the budget, and once every attempt in the budget has failed it
surfaces the last attempt's transport error. -/
theorem connect_bounded_retry_surfaces_last_error (admin_url : String) (u : Url)
    (attempts : Nat → Except TransportError AdminWebsocket)
    (hurl : Url.parse admin_url = some u) :
    (∀ j conn, j ≤ MAX_RETRIES →
      (∀ i, i < j → ∃ e, attempts i = Except.error e) →
      attempts j = Except.ok conn →
      connect attempts admin_url = Except.ok conn) ∧
    (∀ es : Nat → TransportError,
      (∀ i, i ≤ MAX_RETRIES → attempts i = Except.error (es i)) →
      connect attempts admin_url = Except.error (ConnectError.transport (es MAX_RETRIES))) := by
  constructor
  · intro j conn hj hfail hok
    have h := retryGo_eventually_ok attempts MAX_RETRIES 0 j conn (Nat.zero_le _)
      (by omega) (fun i _ h2 => hfail i h2) hok
    simp [connect, hurl, h]
  · intro es hfail
    have h := retryGo_all_fail attempts es MAX_RETRIES 0
      (fun i _ h2 => hfail i (by omega))
    simp only [Nat.zero_add] at h
    simp [connect, hurl, h]

/-- Witness for C6: a host refusing the first attempt but accepting the
second yields a connection, and a permanently unavailable host exhausts the
budget and surfaces the last transport error. -/
theorem connect_bounded_retry_surfaces_last_error_witness :
    connect (fun i => if i = 0 then Except.error ⟨"refused"⟩ else Except.ok ⟨⟨0⟩, ⟨none⟩⟩)
        "ws://localhost:30000" = Except.ok ⟨⟨0⟩, ⟨none⟩⟩ ∧
    connect (fun _ => Except.error ⟨"refused"⟩) "ws://localhost:30000" =
      Except.error (ConnectError.transport ⟨"refused"⟩) := by
  constructor
  · exact (connect_bounded_retry_surfaces_last_error "ws://localhost:30000"
      ⟨"ws", "localhost:30000"⟩ _ (by decide)).1 1 _ (by decide)
      (fun i hi => ⟨⟨"refused"⟩, by
        have h0 : i = 0 := by omega
        subst h0
        rfl⟩) rfl
  · exact (connect_bounded_retry_surfaces_last_error "ws://localhost:30000"
      ⟨"ws", "localhost:30000"⟩ _ (by decide)).2 (fun _ => ⟨"refused"⟩) (fun i _ => rfl)

/-- C7: `connect` validates the address before any I/O — on a malformed
address it returns the terminal `invalidUrl` error whatever the transport
would have done on any attempt (so no attempt outcome is ever consulted and
nothing is retried). -/
theorem connect_rejects_malformed_address_without_io (admin_url : String)
    (h : Url.parse admin_url = none) :
    ∀ attempts, connect attempts admin_url =
      Except.error (ConnectError.invalidUrl "invalid ws:// URL") := by
  intro attempts
  simp [connect, h]

/-- Witness for C7: a malformed address fails with the validation error even
against a transport that would accept immediately. -/
theorem connect_rejects_malformed_address_without_io_witness :
    connect (fun _ => Except.ok ⟨⟨0⟩, ⟨none⟩⟩) "not a url" =
      Except.error (ConnectError.invalidUrl "invalid ws:// URL") :=
  connect_rejects_malformed_address_without_io "not a url" (by decide) _

/-- C8: `close` is idempotent: after one `close`, any further `close` leaves
the connection state unchanged and closes nothing.  `close` is a total
function into `AdminWebsocket × List Handle` — it can neither fail nor
panic, so a repeated call never raises an error. -/
theorem close_second_time_noop (s : AdminWebsocket) :
    close (close s).1 = ((close s).1, []) := by
  rcases s with ⟨tx, ⟨handle⟩⟩
  cases handle <;> simp [close, take_handle]

/-- Witness for C8: closing an open connection twice — the second call is a
no-op. -/
theorem close_second_time_noop_witness :
    close (close ⟨⟨0⟩, ⟨some ⟨1⟩⟩⟩).1 = ((close ⟨⟨0⟩, ⟨some ⟨1⟩⟩⟩).1, []) :=
  close_second_time_noop ⟨⟨0⟩, ⟨some ⟨1⟩⟩⟩

/-- C9 (against the claim): the attach-interface operation does not accept an
optional requested port — its input is a mandatory port and the request it
builds always carries `some port`, so no invocation produces the
`AttachAppInterface none` request. -/
theorem attach_app_interface_port_not_optional :
    ¬ ∃ port : Nat, attach_app_interface_request port =
      AdminRequest.AttachAppInterface none := by
  rintro ⟨port, h⟩
  simp [attach_app_interface_request] at h

/-- C9 as amended: `attach_app_interface` accepts a required requested port,
always sent as `some port` on the wire, and on its accepted response variant
returns the actual port number the host bound. -/
theorem attach_app_interface_required_port_returns_bound (host : Host) (port : Nat) :
    attach_app_interface_request port = AdminRequest.AttachAppInterface (some port) ∧
    (∀ bound, host (attach_app_interface_request port) =
        Except.ok (AdminResponse.AppInterfaceAttached bound) →
      attach_app_interface host port = Outcome.ok bound) :=
  ⟨rfl, fun bound h => by simp [attach_app_interface, send, h]⟩

/-- Witness for the amended C9: requesting port 0 and being bound to 4001
returns 4001. -/
theorem attach_app_interface_required_port_returns_bound_witness :
    attach_app_interface (fun _ => Except.ok (AdminResponse.AppInterfaceAttached 4001)) 0 =
      Outcome.ok 4001 :=
  (attach_app_interface_required_port_returns_bound
    (fun _ => Except.ok (AdminResponse.AppInterfaceAttached 4001)) 0).2 4001 rfl

end ConductorClient
